import Mathlib

/-!
# Verification of the mysqlbeat row-to-metric core

A shallow embedding of the `beater` package of mysqlbeat (Go): the value
typer, the per-series rate state held in the `oldValues` / `oldValuesAge`
maps, the row key derivation, the per-row event assembly
(`generateEventFromRow`, `appendRowToEvent`), the per-query dispatch
(`iterateQuery`) and the per-cycle loop (`beat`).

Modelling conventions:
* Go `float64` values and wall-clock instants are modelled as `ℚ`.  Go
  float division by zero yields `±Inf` while `ℚ` division by zero yields
  `0`; no theorem below depends on the numeric value produced at a zero
  denominator, only on whether a field is emitted.
* Go maps (`common.MapStr`) are modelled as association lists with
  insert-overwrite; iteration order of a Go map is irrelevant to every
  statement proved here (only lookup and size are used).
* `sql.Rows` is modelled as the list of rows (each a list of raw cell
  strings); `Rows.Scan` called without a successful `Next` fails, and a
  Go out-of-range index panic is modelled as an `Except.error`.
* `strconv.ParseInt(s, 0, 64)` / `strconv.ParseFloat(s, 64)` are modelled
  for their sign / base-prefix / decimal grammar and 64-bit range; Go's
  underscore digit separators, hex floats, infinities and NaN are not
  modelled (no classified value here depends on them), and a decimal is
  kept exact in `ℚ` rather than rounded to the nearest binary64.
-/

namespace Mysqlbeat

/-! ## Scalar values and map helpers -/

/-- A typed scalar as stored in `common.MapStr`: Go `string`, `int64` or
`float64` (the latter modelled as `ℚ`). -/
inductive SVal where
  | str (s : String)
  | int (n : Int)
  | float (q : ℚ)
deriving DecidableEq

/-- Go map assignment `m[k] = v` on a string-keyed map: overwrite the
binding of `k` if present, otherwise add it. -/
def minsert {α : Type} (m : List (String × α)) (k : String) (v : α) :
    List (String × α) :=
  (k, v) :: m.eraseP (fun p => p.1 == k)

/-- Go type assertion `v, _ := m[k].(int64)`: the stored `int64`, or `0`
when the key is absent or holds a value of another dynamic type. -/
def getIntOr0 (v : Option SVal) : Int :=
  match v with
  | some (SVal.int n) => n
  | _ => 0

/-- Go type assertion `v, _ := m[k].(float64)`: the stored `float64`, or
`0` when the key is absent or holds a value of another dynamic type. -/
def getFloatOr0 (v : Option SVal) : ℚ :=
  match v with
  | some (SVal.float q) => q
  | _ => 0

/-! ## String helpers (the `strings` package operations used) -/

/-- `strings.HasSuffix s suffix`. -/
def endsWithS (s suffix : String) : Bool :=
  suffix.data.isSuffixOf s.data

/-- Replace the first occurrence of `pat` in a character list by `rep`
(the `n = 1` case of Go `strings.Replace`); an empty `pat` matches at the
start of the string, as in Go. -/
def replaceFirstAux (pat rep : List Char) : List Char → List Char
  | [] => if pat = [] then rep else []
  | c :: cs =>
    if pat.isPrefixOf (c :: cs) then rep ++ (c :: cs).drop pat.length
    else c :: replaceFirstAux pat rep cs

/-- `strings.Replace s pat rep 1`. -/
def replaceFirst (s pat rep : String) : String :=
  String.mk (replaceFirstAux pat.data rep.data s.data)

/-! ## The Go `strconv` parses used by the value typer -/

/-- Value of one digit character in bases up to 16, as `strconv` accepts. -/
def digitVal (c : Char) : Option Nat :=
  if '0' ≤ c ∧ c ≤ '9' then some (c.toNat - '0'.toNat)
  else if 'a' ≤ c ∧ c ≤ 'f' then some (c.toNat - 'a'.toNat + 10)
  else if 'A' ≤ c ∧ c ≤ 'F' then some (c.toNat - 'A'.toNat + 10)
  else none

/-- Accumulate digits of the given base; fails on a non-digit. -/
def parseDigitsAux (base : Nat) (acc : Nat) : List Char → Option Nat
  | [] => some acc
  | c :: cs =>
    match digitVal c with
    | some d => if d < base then parseDigitsAux base (acc * base + d) cs else none
    | none => none

/-- A non-empty run of digits of the given base. -/
def parseDigits (base : Nat) : List Char → Option Nat
  | [] => none
  | c :: cs => parseDigitsAux base 0 (c :: cs)

/-- Strip one optional leading sign; `true` means negative. -/
def splitSign : List Char → Bool × List Char
  | '+' :: cs => (false, cs)
  | '-' :: cs => (true, cs)
  | cs => (false, cs)

/-- Base detection of `strconv.ParseInt` with `base = 0`: `0x`/`0X` hex,
`0b`/`0B` binary, `0o`/`0O` octal, a leading `0` before further characters
legacy octal, otherwise decimal. -/
def detectBase0 : List Char → Nat × List Char
  | '0' :: 'x' :: cs => (16, cs)
  | '0' :: 'X' :: cs => (16, cs)
  | '0' :: 'b' :: cs => (2, cs)
  | '0' :: 'B' :: cs => (2, cs)
  | '0' :: 'o' :: cs => (8, cs)
  | '0' :: 'O' :: cs => (8, cs)
  | '0' :: c :: cs => (8, c :: cs)
  | cs => (10, cs)

/-- `strconv.ParseInt(s, 0, 64)`: optional sign, automatic base, 64-bit
signed range check (out-of-range input is an error, hence `none`).
Underscore digit separators are not modelled. -/
def goParseInt (s : String) : Option Int :=
  let sg := splitSign s.data
  let bd := detectBase0 sg.2
  match parseDigits bd.1 bd.2 with
  | none => none
  | some un =>
    if sg.1 then
      if un ≤ 2 ^ 63 then some (-(un : Int)) else none
    else
      if un ≤ 2 ^ 63 - 1 then some (un : Int) else none

/-- Numeric value of a run of decimal digits. -/
def digitsToNat (cs : List Char) : Nat :=
  cs.foldl (fun a c => a * 10 + (c.toNat - '0'.toNat)) 0

/-- Assemble a parsed decimal: mantissa digits, number of fractional
digits, exponent, sign. -/
def qOfParts (neg : Bool) (mant : Nat) (fdigits : Nat) (ex : Int) : ℚ :=
  let mag : ℚ := (mant : ℚ) * (10 : ℚ) ^ (ex - (fdigits : Int))
  if neg then -mag else mag

/-- `strconv.ParseFloat(s, 64)` on the decimal grammar
`[sign] digits [. [digits]] [e [sign] digits]` (also `.digits`), kept
exact in `ℚ`.  Hex floats, `Inf`/`NaN` spellings, underscore separators
and the binary64 range/rounding are not modelled. -/
def goParseFloat (s : String) : Option ℚ :=
  let sg := splitSign s.data
  let ip := sg.2.span Char.isDigit
  let fp : List Char × List Char :=
    match ip.2 with
    | '.' :: r => r.span Char.isDigit
    | _ => ([], ip.2)
  if ip.1.isEmpty ∧ fp.1.isEmpty then none
  else
    match fp.2 with
    | [] => some (qOfParts sg.1 (digitsToNat (ip.1 ++ fp.1)) fp.1.length 0)
    | 'e' :: r =>
      let esg := splitSign r
      let ed := esg.2.span Char.isDigit
      if ed.1.isEmpty ∨ ¬ ed.2.isEmpty then none
      else
        let ex : Int :=
          if esg.1 then -(digitsToNat ed.1 : Int) else (digitsToNat ed.1 : Int)
        some (qOfParts sg.1 (digitsToNat (ip.1 ++ fp.1)) fp.1.length ex)
    | 'E' :: r =>
      let esg := splitSign r
      let ed := esg.2.span Char.isDigit
      if ed.1.isEmpty ∨ ¬ ed.2.isEmpty then none
      else
        let ex : Int :=
          if esg.1 then -(digitsToNat ed.1 : Int) else (digitsToNat ed.1 : Int)
        some (qOfParts sg.1 (digitsToNat (ip.1 ++ fp.1)) fp.1.length ex)
    | _ => none

/-! ## Constants of the `beater` package -/

def queryTypeSingleRow : String := "single-row"
def queryTypeMultipleRows : String := "multiple-rows"
def queryTypeTwoColumns : String := "two-columns"
def queryTypeSlaveDelay : String := "show-slave-delay"

def columnNameSlaveDelay : String := "Seconds_Behind_Master"

def columnTypeString : Nat := 0
def columnTypeInt : Nat := 1
def columnTypeFloat : Nat := 2

/-- The value typer of `generateEventFromRow` / `appendRowToEvent` given
the two parse results: integer parse success wins, then float, else
string. -/
def strColTypeOfParts (nParse : Option Int) (fParse : Option ℚ) : Nat :=
  if nParse.isSome then columnTypeInt
  else if fParse.isSome then columnTypeFloat
  else columnTypeString

/-- Classification of one raw textual cell. -/
def strColTypeOf (s : String) : Nat :=
  strColTypeOfParts (goParseInt s) (goParseFloat s)

/-! ## `roundF2I` -/

/-- Truncation toward zero, the integer part returned by Go
`math.Modf`. -/
def ratTrunc (q : ℚ) : Int :=
  if 0 ≤ q then ⌊q⌋ else ⌈q⌉

/-- Fractional part returned by Go `math.Modf` (same sign as the
input). -/
def modfFrac (q : ℚ) : ℚ :=
  q - (ratTrunc q : ℚ)

/-- `roundF2I val roundOn`: ceiling when the `Modf` fractional part
reaches `roundOn`, floor otherwise. -/
def roundF2I (val roundOn : ℚ) : Int :=
  if roundOn ≤ modfFrac val then ⌈val⌉ else ⌊val⌋

/-! ## Configuration and state -/

/-- The two configured suffix markers used by the core. -/
structure Config where
  deltaWildcard : String
  deltaKeyWildcard : String

/-- The two process-lifetime maps of `Mysqlbeat`: last observed value and
last observation time per series key. -/
structure BeatState where
  oldValues : List (String × SVal)
  oldValuesAge : List (String × ℚ)

/-- One emitted record: timestamp plus field map; `fields = none` models
a `beat.Event` whose `Fields` has been set to `nil`. -/
structure BeatEvent where
  timestamp : ℚ
  fields : Option (List (String × SVal))

/-- One query's result set as delivered by the external executor. -/
structure QueryResult where
  columns : List String
  rows : List (List String)

/-- `generateEmptyEvent`: timestamp and the mandatory mode tag. -/
def generateEmptyEvent (queryType : String) (rowAge : ℚ) : BeatEvent :=
  { timestamp := rowAge, fields := some [("type", SVal.str queryType)] }

def missingKeyMsg : String :=
  "query type multiple-rows requires at least one delta key column"

def scanNoNextMsg : String := "sql: Scan called without calling Next"

def scanArgsMsg : String := "sql: expected scan destination arguments"

def indexRangeMsg : String := "runtime error: index out of range"

/-- `getKeyFromRow`: concatenate, in column order, the raw values of
every column whose name ends with the delta key wildcard; error when no
column matches. -/
def getKeyFromRow (cfg : Config) (values columns : List String) :
    Except String String :=
  let acc :=
    (values.zip columns).foldl
      (fun (acc : String × Bool) (p : String × String) =>
        if endsWithS p.2 cfg.deltaKeyWildcard then (acc.1 ++ p.1, true) else acc)
      ("", false)
  if acc.2 then Except.ok acc.1 else Except.error missingKeyMsg

/-! ## `generateEventFromRow` -/

/-- The per-column loop of `generateEventFromRow` (source lines 374-501),
iterating over the scanned row cells paired with their column names.
`values` and `columns` are the whole row and column list, consulted by
`getKeyFromRow`.  An error (the missing-key error of multiple-rows mode)
carries the state reached when it is raised, mirroring the in-place map
mutation of the Go code. -/
def genFields (cfg : Config) (queryType : String) (rowAge : ℚ)
    (values columns : List String) :
    List (String × String) → List (String × SVal) → BeatState →
    Except (String × BeatState) (List (String × SVal) × BeatState)
  | [], fields, st => Except.ok (fields, st)
  | (colVal, colName) :: rest, fields, st =>
    if queryType == queryTypeSlaveDelay && colName != columnNameSlaveDelay then
      genFields cfg queryType rowAge values columns rest fields st
    else
      let strEventColName :=
        if endsWithS colName cfg.deltaKeyWildcard then
          replaceFirst colName cfg.deltaKeyWildcard ""
        else if endsWithS colName cfg.deltaWildcard then
          replaceFirst colName cfg.deltaWildcard "_PERSECOND"
        else colName
      let nParse := goParseInt colVal
      let fParse := goParseFloat colVal
      let strColType := strColTypeOfParts nParse fParse
      let nColValue : Int := nParse.getD 0
      let fColValue : ℚ := fParse.getD 0
      if (queryType == queryTypeSingleRow || queryType == queryTypeMultipleRows)
          && endsWithS colName cfg.deltaWildcard then
        let keyRes : Except (String × BeatState) String :=
          if queryType == queryTypeSingleRow then Except.ok colName
          else
            match getKeyFromRow cfg values columns with
            | Except.ok k => Except.ok (k ++ colName)
            | Except.error e => Except.error (e, st)
        match keyRes with
        | Except.error e => Except.error e
        | Except.ok strKey =>
          if (st.oldValues.lookup strKey).isNone then
            let oldValues' :=
              if strColType = columnTypeString then
                minsert st.oldValues strKey (SVal.str colVal)
              else if strColType = columnTypeInt then
                minsert st.oldValues strKey (SVal.int nColValue)
              else minsert st.oldValues strKey (SVal.float fColValue)
            genFields cfg queryType rowAge values columns rest fields
              { oldValues := oldValues',
                oldValuesAge := minsert st.oldValuesAge strKey rowAge }
          else
            match st.oldValuesAge.lookup strKey with
            | none => genFields cfg queryType rowAge values columns rest fields st
            | some dtOldAge =>
              let delta := rowAge - dtOldAge
              if strColType = columnTypeInt then
                let oldVal := getIntOr0 (st.oldValues.lookup strKey)
                let calcVal : Int :=
                  if oldVal < nColValue then
                    roundF2I (((nColValue - oldVal : Int) : ℚ) / delta) (1 / 2)
                  else 0
                genFields cfg queryType rowAge values columns rest
                  (minsert fields strEventColName (SVal.int calcVal))
                  { oldValues := minsert st.oldValues strKey (SVal.int nColValue),
                    oldValuesAge := minsert st.oldValuesAge strKey rowAge }
              else if strColType = columnTypeFloat then
                let oldVal := getFloatOr0 (st.oldValues.lookup strKey)
                let calcVal : ℚ :=
                  if oldVal < fColValue then (fColValue - oldVal) / delta else 0
                genFields cfg queryType rowAge values columns rest
                  (minsert fields strEventColName (SVal.float calcVal))
                  { oldValues := minsert st.oldValues strKey (SVal.float fColValue),
                    oldValuesAge := minsert st.oldValuesAge strKey rowAge }
              else
                genFields cfg queryType rowAge values columns rest
                  (minsert fields strEventColName (SVal.str colVal)) st
      else
        let fields' :=
          if strColType = columnTypeString then
            minsert fields strEventColName (SVal.str colVal)
          else if strColType = columnTypeInt then
            minsert fields strEventColName (SVal.int nColValue)
          else minsert fields strEventColName (SVal.float fColValue)
        genFields cfg queryType rowAge values columns rest fields' st

/-- `generateEventFromRow`: scan the current row (`none` models a cursor
with no current row, on which `Rows.Scan` fails), run the per-column
loop, then clear the field map to `nil` when it holds nothing beyond the
mode tag — the event itself is still returned non-nil, as in the
source. -/
def generateEventFromRow (cfg : Config) (st : BeatState)
    (crow : Option (List String)) (columns : List String)
    (queryType : String) (rowAge : ℚ) :
    Except (String × BeatState) (BeatEvent × BeatState) :=
  let event := generateEmptyEvent queryType rowAge
  match crow with
  | none => Except.error (scanNoNextMsg, st)
  | some values =>
    if values.length = columns.length then
      match genFields cfg queryType rowAge values columns
          (values.zip columns) (event.fields.getD []) st with
      | Except.error e => Except.error e
      | Except.ok (fields, st') =>
        Except.ok
          ({ event with
              fields := if fields.length = 1 then none else some fields }, st')
    else Except.error (scanArgsMsg, st)

/-! ## `appendRowToEvent` (two-columns mode) -/

/-- Body of `appendRowToEvent` after the row cells have been scanned:
cell 0 is the field name, cell 1 its value. -/
def appendRowBody (cfg : Config) (st : BeatState)
    (fields : List (String × SVal)) (strColName strColValue : String)
    (rowAge : ℚ) : List (String × SVal) × BeatState :=
  let strEventColName := replaceFirst strColName cfg.deltaWildcard "_PERSECOND"
  let nParse := goParseInt strColValue
  let fParse := goParseFloat strColValue
  let strColType := strColTypeOfParts nParse fParse
  let nColValue : Int := nParse.getD 0
  let fColValue : ℚ := fParse.getD 0
  if endsWithS strColName cfg.deltaWildcard then
    if (st.oldValues.lookup strColName).isNone then
      let oldValues' :=
        if strColType = columnTypeString then
          minsert st.oldValues strColName (SVal.str strColValue)
        else if strColType = columnTypeInt then
          minsert st.oldValues strColName (SVal.int nColValue)
        else minsert st.oldValues strColName (SVal.float fColValue)
      (fields,
        { oldValues := oldValues',
          oldValuesAge := minsert st.oldValuesAge strColName rowAge })
    else
      match st.oldValuesAge.lookup strColName with
      | none => (fields, st)
      | some dtOldAge =>
        let delta := rowAge - dtOldAge
        if strColType = columnTypeInt then
          let oldVal := getIntOr0 (st.oldValues.lookup strColName)
          let calcVal : Int :=
            if oldVal < nColValue then
              roundF2I (((nColValue - oldVal : Int) : ℚ) / delta) (1 / 2)
            else 0
          (minsert fields strEventColName (SVal.int calcVal),
            { oldValues := minsert st.oldValues strColName (SVal.int nColValue),
              oldValuesAge := minsert st.oldValuesAge strColName rowAge })
        else if strColType = columnTypeFloat then
          let oldVal := getFloatOr0 (st.oldValues.lookup strColName)
          let calcVal : ℚ :=
            if oldVal < fColValue then (fColValue - oldVal) / delta else 0
          (minsert fields strEventColName (SVal.float calcVal),
            { oldValues := minsert st.oldValues strColName (SVal.float fColValue),
              oldValuesAge := minsert st.oldValuesAge strColName rowAge })
        else (minsert fields strEventColName (SVal.str strColValue), st)
  else
    let fields' :=
      if strColType = columnTypeString then
        minsert fields strEventColName (SVal.str strColValue)
      else if strColType = columnTypeInt then
        minsert fields strEventColName (SVal.int nColValue)
      else minsert fields strEventColName (SVal.float fColValue)
    (fields', st)

/-- `appendRowToEvent`: scan the row, then read cells 0 and 1
unconditionally — the Go index panic on a result set with fewer than two
columns is modelled as an error. -/
def appendRowToEvent (cfg : Config) (st : BeatState)
    (fields : List (String × SVal)) (columns values : List String)
    (rowAge : ℚ) : Except String (List (String × SVal) × BeatState) :=
  if values.length = columns.length then
    match values with
    | v0 :: v1 :: _ => Except.ok (appendRowBody cfg st fields v0 v1 rowAge)
    | _ => Except.error indexRangeMsg
  else Except.error scanArgsMsg

/-! ## `iterateQuery` and the `beat` cycle -/

/-- The row loop of multiple-rows mode: each successfully assembled event
(always non-nil) is appended; an error stops the loop and is reported
with the events gathered so far. -/
def iterMultiRows (cfg : Config) (columns : List String) (queryType : String)
    (dtNow : ℚ) :
    BeatState → List (List String) → List BeatEvent →
    List BeatEvent × BeatState × Option String
  | st, [], acc => (acc, st, none)
  | st, r :: rs, acc =>
    match generateEventFromRow cfg st (some r) columns queryType dtNow with
    | Except.error (e, st') => (acc, st', some e)
    | Except.ok (event, st') =>
      iterMultiRows cfg columns queryType dtNow st' rs (acc ++ [event])

/-- The row loop of two-columns mode, folding every row into one shared
field map. -/
def iterTwoCols (cfg : Config) (columns : List String) (dtNow : ℚ) :
    BeatState → List (String × SVal) → List (List String) →
    Except String (List (String × SVal) × BeatState)
  | st, fields, [] => Except.ok (fields, st)
  | st, fields, r :: rs =>
    match appendRowToEvent cfg st fields columns r dtNow with
    | Except.error e => Except.error e
    | Except.ok (fields', st') => iterTwoCols cfg columns dtNow st' fields' rs

/-- `iterateQuery`: dispatch one query's fresh result set by mode,
returning the events to publish, the new state, and the error (if any)
that the caller will propagate. -/
def iterateQuery (cfg : Config) (st : BeatState) (queryType : String)
    (res : QueryResult) (dtNow : ℚ) :
    List BeatEvent × BeatState × Option String :=
  if queryType == queryTypeSingleRow || queryType == queryTypeSlaveDelay then
    match generateEventFromRow cfg st res.rows.head? res.columns queryType dtNow with
    | Except.ok (event, st') => ([event], st', none)
    | Except.error (e, st') => ([], st', some e)
  else if queryType == queryTypeMultipleRows then
    iterMultiRows cfg res.columns queryType dtNow st res.rows []
  else if queryType == queryTypeTwoColumns then
    let event := generateEmptyEvent queryTypeTwoColumns dtNow
    match iterTwoCols cfg res.columns dtNow st (event.fields.getD []) res.rows with
    | Except.error e => ([], st, some e)
    | Except.ok (fields, st') => ([{ event with fields := some fields }], st', none)
  else ([], st, some ("unknown query type: " ++ queryType))

/-- The query loop of `beat`: queries run in order; each query's events
are published before the next query runs; on an error the failing
query's own events are dropped and the remaining queries of the cycle do
not run.  Returns the full published sequence of the cycle. -/
def beatModel (cfg : Config) (dtNow : ℚ) :
    BeatState → List (String × QueryResult) →
    List BeatEvent × BeatState × Option String
  | st, [] => ([], st, none)
  | st, (queryType, res) :: rest =>
    match iterateQuery cfg st queryType res dtNow with
    | (_, st', some e) => ([], st', some e)
    | (events, st', none) =>
      match beatModel cfg dtNow st' rest with
      | (evs, st'', e') => (events ++ evs, st'', e')

/-! ## Lemmas about `roundF2I` -/

theorem ratTrunc_of_nonneg {q : ℚ} (h : 0 ≤ q) : ratTrunc q = ⌊q⌋ :=
  if_pos h

theorem roundF2I_eq_ceil {q : ℚ} (h0 : 0 ≤ q) (h : 1 / 2 ≤ q - (⌊q⌋ : ℚ)) :
    roundF2I q (1 / 2) = ⌈q⌉ := by
  unfold roundF2I modfFrac
  rw [ratTrunc_of_nonneg h0]
  exact if_pos h

theorem roundF2I_eq_floor {q : ℚ} (h0 : 0 ≤ q) (h : q - (⌊q⌋ : ℚ) < 1 / 2) :
    roundF2I q (1 / 2) = ⌊q⌋ := by
  unfold roundF2I modfFrac
  rw [ratTrunc_of_nonneg h0]
  exact if_neg (not_le.mpr h)

theorem ceil_eq_floor_add_one_of_half_le {q : ℚ} (h : 1 / 2 ≤ q - (⌊q⌋ : ℚ)) :
    ⌈q⌉ = ⌊q⌋ + 1 := by
  rw [Int.ceil_eq_iff]
  constructor
  · push_cast
    linarith
  · push_cast
    have := Int.lt_floor_add_one q
    linarith

theorem floor_add_half_of_half_le {q : ℚ} (h : 1 / 2 ≤ q - (⌊q⌋ : ℚ)) :
    ⌊q + 1 / 2⌋ = ⌊q⌋ + 1 := by
  rw [Int.floor_eq_iff]
  constructor
  · push_cast
    linarith
  · push_cast
    have := Int.lt_floor_add_one q
    linarith

theorem floor_add_half_of_lt_half {q : ℚ} (h : q - (⌊q⌋ : ℚ) < 1 / 2) :
    ⌊q + 1 / 2⌋ = ⌊q⌋ := by
  rw [Int.floor_eq_iff]
  constructor
  · have := Int.floor_le q
    linarith
  · linarith

/-- On non-negative input (every computed integer rate is non-negative),
`roundF2I _ (1/2)` is exactly round-half-up. -/
theorem roundF2I_half_eq (q : ℚ) (h0 : 0 ≤ q) :
    roundF2I q (1 / 2) = ⌊q + 1 / 2⌋ := by
  rcases le_or_lt (1 / 2) (q - (⌊q⌋ : ℚ)) with h | h
  · rw [roundF2I_eq_ceil h0 h, ceil_eq_floor_add_one_of_half_le h,
      floor_add_half_of_half_le h]
  · rw [roundF2I_eq_floor h0 h, floor_add_half_of_lt_half h]

/-- C9: for a non-negative raw rate, a fractional part at or above 0.5
goes to the ceiling, below 0.5 floors; in particular `x.5` for a
non-negative integer `x` rounds to `x + 1`. -/
theorem C9_round_half_up_boundary :
    (∀ q : ℚ, 0 ≤ q → 1 / 2 ≤ q - (⌊q⌋ : ℚ) → roundF2I q (1 / 2) = ⌈q⌉) ∧
    (∀ q : ℚ, 0 ≤ q → q - (⌊q⌋ : ℚ) < 1 / 2 → roundF2I q (1 / 2) = ⌊q⌋) ∧
    (∀ x : ℕ, roundF2I ((x : ℚ) + 1 / 2) (1 / 2) = (x : ℤ) + 1) := by
  refine ⟨fun q h0 h => roundF2I_eq_ceil h0 h,
    fun q h0 h => roundF2I_eq_floor h0 h, fun x => ?_⟩
  have h0 : (0 : ℚ) ≤ (x : ℚ) + 1 / 2 := by positivity
  have hfl : ⌊(x : ℚ) + 1 / 2⌋ = (x : ℤ) := by
    rw [Int.floor_eq_iff]
    constructor
    · push_cast
      linarith
    · push_cast
      linarith
  rw [roundF2I_half_eq _ h0, show (x : ℚ) + 1 / 2 + 1 / 2 = (x : ℚ) + 1 by ring]
  rw [show ((x : ℚ) + 1) = (((x : ℤ) + 1 : ℤ) : ℚ) by push_cast; ring]
  exact Int.floor_intCast _

/-- C9 witness: raw rate 5/2 has fractional part 1/2 and rounds to the
ceiling 3; raw 9/4 floors to 2; 2.5 as `x.5` with `x = 2` rounds to 3. -/
theorem C9_round_half_up_boundary_witness :
    roundF2I (5 / 2) (1 / 2) = ⌈(5 / 2 : ℚ)⌉ ∧
    roundF2I (9 / 4) (1 / 2) = ⌊(9 / 4 : ℚ)⌋ ∧
    roundF2I (((2 : ℕ) : ℚ) + 1 / 2) (1 / 2) = ((2 : ℕ) : ℤ) + 1 := by
  refine ⟨C9_round_half_up_boundary.1 (5 / 2) (by norm_num) ?_,
    C9_round_half_up_boundary.2.1 (9 / 4) (by norm_num) ?_,
    C9_round_half_up_boundary.2.2 2⟩
  · rw [show ⌊(5 / 2 : ℚ)⌋ = 2 by norm_num [Int.floor_eq_iff]]
    norm_num
  · rw [show ⌊(9 / 4 : ℚ)⌋ = 2 by norm_num [Int.floor_eq_iff]]
    norm_num

/-! ## The value typer (C7) -/

/-- C7: classification attempts the integer parse first, then the float
parse, else string; an input that parses as both is classified integer,
never float. -/
theorem C7_typer_ordering :
    ∀ s : String,
      ((goParseInt s).isSome = true →
        strColTypeOf s = columnTypeInt ∧ strColTypeOf s ≠ columnTypeFloat) ∧
      ((goParseInt s).isSome = false → (goParseFloat s).isSome = true →
        strColTypeOf s = columnTypeFloat) ∧
      ((goParseInt s).isSome = false → (goParseFloat s).isSome = false →
        strColTypeOf s = columnTypeString) := by
  intro s
  refine ⟨fun h => ?_, fun h1 h2 => ?_, fun h1 h2 => ?_⟩
  · constructor
    · simp [strColTypeOf, strColTypeOfParts, h]
    · simp [strColTypeOf, strColTypeOfParts, h, columnTypeInt, columnTypeFloat]
  · simp [strColTypeOf, strColTypeOfParts, h1, h2]
  · simp [strColTypeOf, strColTypeOfParts, h1, h2]

/-- C7 witness: `"42"` parses as both integer and float and is classified
integer, not float. -/
theorem C7_typer_ordering_witness :
    ((goParseInt "42").isSome = true ∧ (goParseFloat "42").isSome = true) ∧
    strColTypeOf "42" = columnTypeInt ∧ strColTypeOf "42" ≠ columnTypeFloat :=
  ⟨⟨by decide, by decide⟩, (C7_typer_ordering "42").1 (by decide)⟩

/-! ## Two-columns cell access (C10) -/

/-- C10: the two-columns per-row assembly reads cells 0 and 1
unconditionally, so it is total exactly under the two-column
precondition: with fewer than two columns the access at index 1 is out
of bounds, with at least two it always succeeds. -/
theorem C10_two_columns_index
    (cfg : Config) (st : BeatState) (fields : List (String × SVal))
    (columns values : List String) (rowAge : ℚ)
    (hlen : values.length = columns.length) :
    (values.length < 2 →
      appendRowToEvent cfg st fields columns values rowAge =
        Except.error indexRangeMsg) ∧
    (2 ≤ values.length →
      ∃ out, appendRowToEvent cfg st fields columns values rowAge =
        Except.ok out) := by
  constructor
  · intro hlt
    unfold appendRowToEvent
    rw [if_pos hlen]
    match values, hlt with
    | [], _ => rfl
    | [v0], _ => rfl
    | v0 :: v1 :: rest, hlt => simp at hlt; omega
  · intro hge
    unfold appendRowToEvent
    rw [if_pos hlen]
    match values, hge with
    | v0 :: v1 :: rest, _ =>
      exact ⟨appendRowBody cfg st fields v0 v1 rowAge, rfl⟩

/-- C10 witness: a one-column result set hits the out-of-bounds access,
a two-column one succeeds. -/
theorem C10_two_columns_index_witness :
    (appendRowToEvent { deltaWildcard := "_delta", deltaKeyWildcard := "_dkey" }
        { oldValues := [], oldValuesAge := [] } [] ["n"] ["5"] 0 =
      Except.error indexRangeMsg) ∧
    ∃ out,
      appendRowToEvent { deltaWildcard := "_delta", deltaKeyWildcard := "_dkey" }
        { oldValues := [], oldValuesAge := [] } [] ["n", "v"] ["a", "5"] 0 =
      Except.ok out :=
  ⟨(C10_two_columns_index _ _ _ ["n"] ["5"] 0 (by decide)).1 (by decide),
    (C10_two_columns_index _ _ _ ["n", "v"] ["a", "5"] 0 (by decide)).2 (by decide)⟩

/-! ## Cold start and rate computation (C1) -/

/-- C1: on a fresh series key, the first single-row observation stores
(value, time) and emits no rate field (the record keeps only its mode tag,
which the source then clears); a second observation of integer type with
a larger value at a later time emits the round-half-up of
`(v2 - v) / (t1 - t0)` as an integer under the `_PERSECOND` name. -/
theorem C1_cold_start_then_integer_rate
    (cfg : Config) (st0 : BeatState) (colName s1 s2 : String)
    (v v2 : Int) (t0 t1 : ℚ)
    (hdw : endsWithS colName cfg.deltaWildcard = true)
    (hkw : endsWithS colName cfg.deltaKeyWildcard = false)
    (hs1 : goParseInt s1 = some v) (hs2 : goParseInt s2 = some v2)
    (hv : v < v2) (ht : t0 < t1)
    (hfresh : st0.oldValues.lookup colName = none)
    (hname : replaceFirst colName cfg.deltaWildcard "_PERSECOND" ≠ "type") :
    ∃ st1 : BeatState,
      generateEventFromRow cfg st0 (some [s1]) [colName] queryTypeSingleRow t0 =
        Except.ok ({ timestamp := t0, fields := none }, st1) ∧
      st1.oldValues.lookup colName = some (SVal.int v) ∧
      st1.oldValuesAge.lookup colName = some t0 ∧
      ∃ (st2 : BeatState) (fs2 : List (String × SVal)),
        generateEventFromRow cfg st1 (some [s2]) [colName] queryTypeSingleRow t1 =
          Except.ok ({ timestamp := t1, fields := some fs2 }, st2) ∧
        fs2.lookup (replaceFirst colName cfg.deltaWildcard "_PERSECOND") =
          some (SVal.int ⌊(((v2 - v : Int) : ℚ) / (t1 - t0)) + 1 / 2⌋) := by
  have hname' :
      ("type" == replaceFirst colName cfg.deltaWildcard "_PERSECOND") = false :=
    beq_eq_false_iff_ne.mpr (Ne.symm hname)
  refine ⟨⟨minsert st0.oldValues colName (SVal.int v),
    minsert st0.oldValuesAge colName t0⟩, ?_, ?_, ?_, ?_⟩
  · simp [generateEventFromRow, generateEmptyEvent, genFields, queryTypeSingleRow,
      queryTypeSlaveDelay, queryTypeMultipleRows, hdw, hkw, hs1, hfresh,
      strColTypeOfParts, columnTypeString, columnTypeInt, columnTypeFloat]
  · simp [minsert]
  · simp [minsert]
  · have hq : (0 : ℚ) ≤ ((v2 - v : Int) : ℚ) / (t1 - t0) := by
      apply div_nonneg
      · exact_mod_cast le_of_lt (sub_pos.mpr hv)
      · linarith
    refine ⟨⟨minsert (minsert st0.oldValues colName (SVal.int v)) colName
        (SVal.int v2),
      minsert (minsert st0.oldValuesAge colName t0) colName t1⟩,
      [(replaceFirst colName cfg.deltaWildcard "_PERSECOND",
        SVal.int (roundF2I (((v2 - v : Int) : ℚ) / (t1 - t0)) (1 / 2))),
       ("type", SVal.str queryTypeSingleRow)], ?_, ?_⟩
    · have hprior :
          (minsert st0.oldValues colName (SVal.int v)).lookup colName =
            some (SVal.int v) := by
        simp [minsert]
      have hage :
          (minsert st0.oldValuesAge colName t0).lookup colName = some t0 := by
        simp [minsert]
      simp only [generateEventFromRow, generateEmptyEvent, genFields,
        queryTypeSingleRow, queryTypeSlaveDelay, queryTypeMultipleRows]
      simp [hdw, hkw, hs2, hprior, hage, hv, hname', strColTypeOfParts,
        columnTypeString, columnTypeInt, columnTypeFloat, getIntOr0,
        queryTypeSingleRow, queryTypeSlaveDelay, queryTypeMultipleRows,
        generateEventFromRow, generateEmptyEvent, genFields, minsert]
    · have h2 := roundF2I_half_eq (((v2 - v : Int) : ℚ) / (t1 - t0)) hq
      simp only [one_div] at h2
      push_cast at h2
      simp [List.lookup, h2]

/-- C1 witness: marker `_delta`, fresh key `Queries_delta`, values 100
then 150 observed at times 0 and 10 — the second cycle emits rate 5. -/
theorem C1_cold_start_then_integer_rate_witness :
    ∃ st1 : BeatState,
      generateEventFromRow { deltaWildcard := "_delta", deltaKeyWildcard := "_dkey" }
          { oldValues := [], oldValuesAge := [] } (some ["100"]) ["Queries_delta"]
          queryTypeSingleRow 0 =
        Except.ok ({ timestamp := 0, fields := none }, st1) ∧
      st1.oldValues.lookup "Queries_delta" = some (SVal.int 100) ∧
      st1.oldValuesAge.lookup "Queries_delta" = some 0 ∧
      ∃ (st2 : BeatState) (fs2 : List (String × SVal)),
        generateEventFromRow { deltaWildcard := "_delta", deltaKeyWildcard := "_dkey" }
            st1 (some ["150"]) ["Queries_delta"] queryTypeSingleRow 10 =
          Except.ok ({ timestamp := 10, fields := some fs2 }, st2) ∧
        fs2.lookup (replaceFirst "Queries_delta" "_delta" "_PERSECOND") =
          some (SVal.int ⌊(((150 - 100 : Int) : ℚ) / (10 - 0)) + 1 / 2⌋) :=
  C1_cold_start_then_integer_rate _ _ "Queries_delta" "100" "150" 100 150 0 10
    (by decide) (by decide) (by decide) (by decide) (by decide) (by norm_num)
    rfl (by decide)

/-! ## Monotonic reset (C8) -/

/-- C8: a numeric observation whose value does not exceed the stored
prior emits rate exactly 0 (integer or float series alike), never a
negative, and the stored state is still advanced to the new value and
time. -/
theorem C8_monotonic_reset :
    (∀ (cfg : Config) (st : BeatState) (colName s2 : String) (v v2 : Int)
        (t0 t1 : ℚ),
      endsWithS colName cfg.deltaWildcard = true →
      endsWithS colName cfg.deltaKeyWildcard = false →
      goParseInt s2 = some v2 →
      st.oldValues.lookup colName = some (SVal.int v) →
      st.oldValuesAge.lookup colName = some t0 →
      v2 ≤ v →
      replaceFirst colName cfg.deltaWildcard "_PERSECOND" ≠ "type" →
      ∃ (st' : BeatState) (fs : List (String × SVal)),
        generateEventFromRow cfg st (some [s2]) [colName] queryTypeSingleRow t1 =
          Except.ok ({ timestamp := t1, fields := some fs }, st') ∧
        fs.lookup (replaceFirst colName cfg.deltaWildcard "_PERSECOND") =
          some (SVal.int 0) ∧
        st'.oldValues.lookup colName = some (SVal.int v2) ∧
        st'.oldValuesAge.lookup colName = some t1) ∧
    (∀ (cfg : Config) (st : BeatState) (colName s2 : String) (v v2 : ℚ)
        (t0 t1 : ℚ),
      endsWithS colName cfg.deltaWildcard = true →
      endsWithS colName cfg.deltaKeyWildcard = false →
      goParseInt s2 = none →
      goParseFloat s2 = some v2 →
      st.oldValues.lookup colName = some (SVal.float v) →
      st.oldValuesAge.lookup colName = some t0 →
      v2 ≤ v →
      replaceFirst colName cfg.deltaWildcard "_PERSECOND" ≠ "type" →
      ∃ (st' : BeatState) (fs : List (String × SVal)),
        generateEventFromRow cfg st (some [s2]) [colName] queryTypeSingleRow t1 =
          Except.ok ({ timestamp := t1, fields := some fs }, st') ∧
        fs.lookup (replaceFirst colName cfg.deltaWildcard "_PERSECOND") =
          some (SVal.float 0) ∧
        st'.oldValues.lookup colName = some (SVal.float v2) ∧
        st'.oldValuesAge.lookup colName = some t1) := by
  constructor
  · intro cfg st colName s2 v v2 t0 t1 hdw hkw hs2 hprior hage hle hname
    have hname' :
        ("type" == replaceFirst colName cfg.deltaWildcard "_PERSECOND") = false :=
      beq_eq_false_iff_ne.mpr (Ne.symm hname)
    have hnlt : ¬ v < v2 := not_lt.mpr hle
    refine ⟨⟨minsert st.oldValues colName (SVal.int v2),
      minsert st.oldValuesAge colName t1⟩,
      [(replaceFirst colName cfg.deltaWildcard "_PERSECOND", SVal.int 0),
       ("type", SVal.str queryTypeSingleRow)], ?_, ?_, ?_, ?_⟩
    · simp [generateEventFromRow, generateEmptyEvent, genFields,
        queryTypeSingleRow, queryTypeSlaveDelay, queryTypeMultipleRows, hdw,
        hkw, hs2, hprior, hage, hnlt, hname', strColTypeOfParts,
        columnTypeString, columnTypeInt, columnTypeFloat, getIntOr0, minsert]
    · simp [List.lookup]
    · simp [minsert]
    · simp [minsert]
  · intro cfg st colName s2 v v2 t0 t1 hdw hkw hsi hsf hprior hage hle hname
    have hname' :
        ("type" == replaceFirst colName cfg.deltaWildcard "_PERSECOND") = false :=
      beq_eq_false_iff_ne.mpr (Ne.symm hname)
    have hnlt : ¬ v < v2 := not_lt.mpr hle
    refine ⟨⟨minsert st.oldValues colName (SVal.float v2),
      minsert st.oldValuesAge colName t1⟩,
      [(replaceFirst colName cfg.deltaWildcard "_PERSECOND", SVal.float 0),
       ("type", SVal.str queryTypeSingleRow)], ?_, ?_, ?_, ?_⟩
    · simp [generateEventFromRow, generateEmptyEvent, genFields,
        queryTypeSingleRow, queryTypeSlaveDelay, queryTypeMultipleRows, hdw,
        hkw, hsi, hsf, hprior, hage, hnlt, hname', strColTypeOfParts,
        columnTypeString, columnTypeInt, columnTypeFloat, getFloatOr0, minsert]
    · simp [List.lookup]
    · simp [minsert]
    · simp [minsert]

/-- C8 witness: integer series falling 150 → 100 and float series falling
2.5 → 1.5 both emit rate 0 and still advance the stored state. -/
theorem C8_monotonic_reset_witness :
    (∃ (st' : BeatState) (fs : List (String × SVal)),
      generateEventFromRow { deltaWildcard := "_delta", deltaKeyWildcard := "_dkey" }
          { oldValues := [("Queries_delta", SVal.int 150)],
            oldValuesAge := [("Queries_delta", 0)] }
          (some ["100"]) ["Queries_delta"] queryTypeSingleRow 10 =
        Except.ok ({ timestamp := 10, fields := some fs }, st') ∧
      fs.lookup (replaceFirst "Queries_delta" "_delta" "_PERSECOND") =
        some (SVal.int 0) ∧
      st'.oldValues.lookup "Queries_delta" = some (SVal.int 100) ∧
      st'.oldValuesAge.lookup "Queries_delta" = some 10) ∧
    ∃ (st' : BeatState) (fs : List (String × SVal)),
      generateEventFromRow { deltaWildcard := "_delta", deltaKeyWildcard := "_dkey" }
          { oldValues := [("Load_delta", SVal.float (5 / 2))],
            oldValuesAge := [("Load_delta", 0)] }
          (some ["1.5"]) ["Load_delta"] queryTypeSingleRow 10 =
        Except.ok ({ timestamp := 10, fields := some fs }, st') ∧
      fs.lookup (replaceFirst "Load_delta" "_delta" "_PERSECOND") =
        some (SVal.float 0) ∧
      st'.oldValues.lookup "Load_delta" = some (SVal.float (3 / 2)) ∧
      st'.oldValuesAge.lookup "Load_delta" = some 10 :=
  ⟨C8_monotonic_reset.1 { deltaWildcard := "_delta", deltaKeyWildcard := "_dkey" }
      { oldValues := [("Queries_delta", SVal.int 150)],
        oldValuesAge := [("Queries_delta", 0)] }
      "Queries_delta" "100" 150 100 0 10 (by decide) (by decide) (by decide)
      (by simp [List.lookup]) (by simp [List.lookup]) (by decide) (by decide),
    C8_monotonic_reset.2 { deltaWildcard := "_delta", deltaKeyWildcard := "_dkey" }
      { oldValues := [("Load_delta", SVal.float (5 / 2))],
        oldValuesAge := [("Load_delta", 0)] }
      "Load_delta" "1.5" (5 / 2) (3 / 2) 0 10 (by decide) (by decide) (by decide)
      (by
        have h : goParseFloat "1.5" = some (qOfParts false 15 1 0) := rfl
        rw [h]
        norm_num [qOfParts])
      (by simp [List.lookup]) (by simp [List.lookup]) (by norm_num) (by decide)⟩

/-! ## String-typed delta observation (C6) -/

/-- C6 (amended): with prior state present, a string-typed current value
(parseable as neither integer nor float) makes the source emit the raw
current string in place of a rate — but, unlike the numeric branches, it
leaves the stored (value, observedAt) state entirely unchanged. -/
theorem C6_string_delta_emits_raw_keeps_state
    (cfg : Config) (st : BeatState) (colName s : String) (t1 : ℚ)
    (hdw : endsWithS colName cfg.deltaWildcard = true)
    (hkw : endsWithS colName cfg.deltaKeyWildcard = false)
    (hsi : goParseInt s = none) (hsf : goParseFloat s = none)
    (hprior : (st.oldValues.lookup colName).isSome = true)
    (hage : ∃ t0, st.oldValuesAge.lookup colName = some t0)
    (hname : replaceFirst colName cfg.deltaWildcard "_PERSECOND" ≠ "type") :
    ∃ fs : List (String × SVal),
      generateEventFromRow cfg st (some [s]) [colName] queryTypeSingleRow t1 =
        Except.ok ({ timestamp := t1, fields := some fs }, st) ∧
      fs.lookup (replaceFirst colName cfg.deltaWildcard "_PERSECOND") =
        some (SVal.str s) := by
  obtain ⟨sv, hsv⟩ := Option.isSome_iff_exists.mp hprior
  obtain ⟨t0, ht0⟩ := hage
  have hname' :
      ("type" == replaceFirst colName cfg.deltaWildcard "_PERSECOND") = false :=
    beq_eq_false_iff_ne.mpr (Ne.symm hname)
  refine ⟨[(replaceFirst colName cfg.deltaWildcard "_PERSECOND", SVal.str s),
    ("type", SVal.str queryTypeSingleRow)], ?_, ?_⟩
  · simp [generateEventFromRow, generateEmptyEvent, genFields,
      queryTypeSingleRow, queryTypeSlaveDelay, queryTypeMultipleRows, hdw, hkw,
      hsi, hsf, hsv, ht0, hname', strColTypeOfParts, columnTypeString,
      columnTypeInt, columnTypeFloat, minsert]
  · simp [List.lookup]

/-- C6 witness: prior integer state 100 at time 3 for `X_delta`; the
current value `"abc"` is emitted raw under `X_PERSECOND` and the state is
returned unchanged. -/
theorem C6_string_delta_emits_raw_keeps_state_witness :
    ∃ fs : List (String × SVal),
      generateEventFromRow { deltaWildcard := "_delta", deltaKeyWildcard := "_dkey" }
          { oldValues := [("X_delta", SVal.int 100)],
            oldValuesAge := [("X_delta", 3)] }
          (some ["abc"]) ["X_delta"] queryTypeSingleRow 10 =
        Except.ok ({ timestamp := 10, fields := some fs },
          { oldValues := [("X_delta", SVal.int 100)],
            oldValuesAge := [("X_delta", 3)] }) ∧
      fs.lookup (replaceFirst "X_delta" "_delta" "_PERSECOND") =
        some (SVal.str "abc") :=
  C6_string_delta_emits_raw_keeps_state
    { deltaWildcard := "_delta", deltaKeyWildcard := "_dkey" }
    { oldValues := [("X_delta", SVal.int 100)], oldValuesAge := [("X_delta", 3)] }
    "X_delta" "abc" 10 (by decide) (by decide) (by decide) (by decide)
    (by simp [List.lookup]) ⟨3, by simp [List.lookup]⟩ (by decide)

/-- C6 counterexample: the claim's second half — that the stored
(value, observedAt) pair is overwritten with the current cycle's values —
fails: with prior `(int 100, 3)` and current string `"abc"` at time 10,
the state after the call still holds `(int 100, 3)`, not `("abc", 10)`. -/
theorem C6_string_delta_counterexample :
    (generateEventFromRow { deltaWildcard := "_delta", deltaKeyWildcard := "_dkey" }
        { oldValues := [("X_delta", SVal.int 100)],
          oldValuesAge := [("X_delta", 3)] }
        (some ["abc"]) ["X_delta"] queryTypeSingleRow 10 =
      Except.ok
        ({ timestamp := 10,
           fields := some [("X_PERSECOND", SVal.str "abc"),
                           ("type", SVal.str "single-row")] },
         { oldValues := [("X_delta", SVal.int 100)],
           oldValuesAge := [("X_delta", 3)] })) ∧
    SVal.int 100 ≠ SVal.str "abc" ∧ (3 : ℚ) ≠ 10 := by
  refine ⟨?_, by decide, by norm_num⟩
  have hdw : endsWithS "X_delta" "_delta" = true := by decide
  have hkw : endsWithS "X_delta" "_dkey" = false := by decide
  have hrep : replaceFirst "X_delta" "_delta" "_PERSECOND" = "X_PERSECOND" := by
    decide
  have hsi : goParseInt "abc" = none := by decide
  have hsf : goParseFloat "abc" = none := by decide
  simp [generateEventFromRow, generateEmptyEvent, genFields, queryTypeSingleRow,
    queryTypeSlaveDelay, queryTypeMultipleRows, strColTypeOfParts,
    columnTypeString, columnTypeInt, columnTypeFloat, minsert, List.lookup,
    hdw, hkw, hrep, hsi, hsf]

/-! ## Equal timestamps (C2) -/

/-- C2 (code evaluated at the failing input): two observations of
`Queries_delta` at the identical instant 5 (values 100 then 150).  The
source has no guard on a zero elapsed time: the second call still
computes the rate through the division and emits a `Queries_PERSECOND`
field, where the claim requires no rate field to be emitted.  (In Go the
divisor `delta.Seconds()` is `0.0` and the division yields `+Inf`; only
the presence of the field is asserted here, not its numeric value.) -/
theorem C2_equal_timestamp_still_emits_rate_field :
    match generateEventFromRow
        { deltaWildcard := "_delta", deltaKeyWildcard := "_dkey" }
        { oldValues := [], oldValuesAge := [] }
        (some ["100"]) ["Queries_delta"] queryTypeSingleRow 5 with
    | Except.error _ => False
    | Except.ok (ev1, st1) =>
      ev1.fields = none ∧
      match generateEventFromRow
          { deltaWildcard := "_delta", deltaKeyWildcard := "_dkey" }
          st1 (some ["150"]) ["Queries_delta"] queryTypeSingleRow 5 with
      | Except.error _ => False
      | Except.ok (ev2, _) =>
        (((ev2.fields.getD []).lookup "Queries_PERSECOND").isSome = true) := by
  have hdw : endsWithS "Queries_delta" "_delta" = true := by decide
  have hkw : endsWithS "Queries_delta" "_dkey" = false := by decide
  have hrep :
      replaceFirst "Queries_delta" "_delta" "_PERSECOND" = "Queries_PERSECOND" := by
    decide
  have hs1 : goParseInt "100" = some 100 := by decide
  have hs2 : goParseInt "150" = some 150 := by decide
  simp [generateEventFromRow, generateEmptyEvent, genFields, queryTypeSingleRow,
    queryTypeSlaveDelay, queryTypeMultipleRows, strColTypeOfParts,
    columnTypeString, columnTypeInt, columnTypeFloat, minsert, List.lookup,
    getIntOr0, hdw, hkw, hrep, hs1, hs2]

/-! ## Empty result sets (C4) -/

/-- C4 counterexample: a single-row query whose result set has zero rows.
The source ignores the boolean returned by `rows.Next()` and calls
`Scan` anyway, which fails; the claim that no error is reported is false —
`iterateQuery` returns the scan error (and no events). -/
theorem C4_empty_result_counterexample :
    iterateQuery { deltaWildcard := "_delta", deltaKeyWildcard := "_dkey" }
        { oldValues := [], oldValuesAge := [] } queryTypeSingleRow
        { columns := ["a"], rows := [] } 0 =
      ([], { oldValues := [], oldValuesAge := [] }, some scanNoNextMsg) ∧
    some scanNoNextMsg ≠ (none : Option String) := by
  constructor
  · simp [iterateQuery, generateEventFromRow, queryTypeSingleRow,
      queryTypeSlaveDelay]
  · simp

/-- C4 (amended): a query returning zero rows in single-row or
show-slave-delay mode emits no record — but not silently: the row scan
fails and the error is reported to the caller, aborting the cycle. -/
theorem C4_empty_result_emits_nothing_but_errors
    (cfg : Config) (st : BeatState) (columns : List String) (t : ℚ) :
    iterateQuery cfg st queryTypeSingleRow { columns := columns, rows := [] } t =
      ([], st, some scanNoNextMsg) ∧
    iterateQuery cfg st queryTypeSlaveDelay { columns := columns, rows := [] } t =
      ([], st, some scanNoNextMsg) := by
  constructor
  · simp [iterateQuery, generateEventFromRow, queryTypeSingleRow,
      queryTypeSlaveDelay]
  · simp [iterateQuery, generateEventFromRow, queryTypeSingleRow,
      queryTypeSlaveDelay]

/-! ## Empty records are not suppressed (C5) -/

/-- C5 (code evaluated at the failing input): a show-slave-delay row
with no `Seconds_Behind_Master` column yields a record with zero data
fields; the source sets `event.Fields = nil` but returns the non-nil
event, the `event != nil` guard in `iterateQuery` passes, and the empty
record is appended and handed to the publishing collaborator — where the
claim requires complete suppression. -/
theorem C5_empty_record_still_published :
    beatModel { deltaWildcard := "_delta", deltaKeyWildcard := "_dkey" } 0
        { oldValues := [], oldValuesAge := [] }
        [(queryTypeSlaveDelay,
          { columns := ["Other_Column"], rows := [["x"]] })] =
      ([{ timestamp := 0, fields := none }],
        { oldValues := [], oldValuesAge := [] }, none) ∧
    ([({ timestamp := 0, fields := none } : BeatEvent)] : List BeatEvent) ≠ [] := by
  constructor
  · have hc : ("Other_Column" != columnNameSlaveDelay) = true := by decide
    simp [beatModel, iterateQuery, generateEventFromRow, generateEmptyEvent,
      genFields, queryTypeSingleRow, queryTypeSlaveDelay, queryTypeMultipleRows,
      queryTypeTwoColumns, hc]
  · simp

/-! ## Missing key column aborts the cycle (C3) -/

/-- The key-collecting fold of `getKeyFromRow` leaves its accumulator
untouched when no entry's column name ends with the key wildcard. -/
theorem foldl_key_unchanged (kw : String) (l : List (String × String))
    (h : ∀ p ∈ l, endsWithS p.2 kw = false) (acc : String × Bool) :
    l.foldl (fun (acc : String × Bool) (p : String × String) =>
      if endsWithS p.2 kw then (acc.1 ++ p.1, true) else acc) acc = acc := by
  induction l generalizing acc with
  | nil => rfl
  | cons p ps ih =>
    rw [List.foldl_cons, if_neg]
    · exact ih (fun q hq => h q (List.mem_cons_of_mem p hq)) acc
    · simp [h p (List.mem_cons_self p ps)]

/-- `getKeyFromRow` fails with the missing-key error when no column name
ends with the delta key wildcard. -/
theorem getKeyFromRow_missing (cfg : Config) (values columns : List String)
    (h : ∀ c ∈ columns, endsWithS c cfg.deltaKeyWildcard = false) :
    getKeyFromRow cfg values columns = Except.error missingKeyMsg := by
  have hz : ∀ p ∈ values.zip columns, endsWithS p.2 cfg.deltaKeyWildcard = false :=
    fun p hp => h p.2 (List.of_mem_zip hp).2
  unfold getKeyFromRow
  rw [foldl_key_unchanged _ _ hz]
  rfl

/-- In multiple-rows mode, a row holding some delta column but no key
column makes the per-column loop abort with the missing-key error,
leaving the state as it was when the error is raised. -/
theorem genFields_missing_key (cfg : Config) (t : ℚ) (values columns : List String)
    (hcols : ∀ c ∈ columns, endsWithS c cfg.deltaKeyWildcard = false)
    (l : List (String × String)) (fields : List (String × SVal)) (st : BeatState)
    (hl : ∃ p ∈ l, endsWithS p.2 cfg.deltaWildcard = true) :
    genFields cfg queryTypeMultipleRows t values columns l fields st =
      Except.error (missingKeyMsg, st) := by
  induction l generalizing fields with
  | nil =>
    obtain ⟨p, hp, _⟩ := hl
    exact absurd hp (List.not_mem_nil p)
  | cons p ps ih =>
    by_cases hdw : endsWithS p.2 cfg.deltaWildcard = true
    · simp [genFields, queryTypeMultipleRows, queryTypeSlaveDelay,
        queryTypeSingleRow, hdw, getKeyFromRow_missing cfg values columns hcols]
    · have hdw' : endsWithS p.2 cfg.deltaWildcard = false :=
        Bool.not_eq_true _ ▸ eq_false_of_ne_true hdw
      obtain ⟨q, hq, hqdw⟩ := hl
      rcases List.mem_cons.mp hq with rfl | hq'
      · exact absurd hqdw hdw
      · simp only [genFields, queryTypeMultipleRows, queryTypeSlaveDelay,
          queryTypeSingleRow, hdw']
        simp [hdw']
        exact ih _ ⟨q, hq', hqdw⟩

/-- `generateEventFromRow` on such a row returns the missing-key error
and no event. -/
theorem generateEventFromRow_missing_key (cfg : Config) (st : BeatState)
    (r columns : List String) (t : ℚ)
    (hlen : r.length = columns.length)
    (hcols : ∀ c ∈ columns, endsWithS c cfg.deltaKeyWildcard = false)
    (hdelta : ∃ p ∈ r.zip columns, endsWithS p.2 cfg.deltaWildcard = true) :
    generateEventFromRow cfg st (some r) columns queryTypeMultipleRows t =
      Except.error (missingKeyMsg, st) := by
  simp [generateEventFromRow, generateEmptyEvent, hlen,
    genFields_missing_key cfg t r columns hcols (r.zip columns) _ st hdelta]

/-- C3 (amended): a multiple-rows query with a delta column but no
key-suffix column aborts not only its own result set but the rest of the
cycle: the missing-key error propagates through `iterateQuery` to the
query loop of `beat`, which returns it before running any later query,
so the cycle publishes nothing further. -/
theorem C3_missing_key_aborts_cycle (cfg : Config) (st : BeatState) (t : ℚ)
    (res : QueryResult) (rest : List (String × QueryResult))
    (r : List String) (rs : List (List String))
    (hrows : res.rows = r :: rs)
    (hlen : r.length = res.columns.length)
    (hcols : ∀ c ∈ res.columns, endsWithS c cfg.deltaKeyWildcard = false)
    (hdelta : ∃ p ∈ r.zip res.columns, endsWithS p.2 cfg.deltaWildcard = true) :
    beatModel cfg t st ((queryTypeMultipleRows, res) :: rest) =
      ([], st, some missingKeyMsg) := by
  have hgen := generateEventFromRow_missing_key cfg st r res.columns t hlen hcols hdelta
  simp only [queryTypeMultipleRows] at hgen
  simp [beatModel, iterateQuery, queryTypeMultipleRows, queryTypeSingleRow,
    queryTypeSlaveDelay, queryTypeTwoColumns, hrows, iterMultiRows, hgen]

/-- C3 witness: a cycle of two queries — the first multiple-rows with a
delta column and no key column, the second a plain single-row query —
publishes nothing and reports the missing-key error. -/
theorem C3_missing_key_aborts_cycle_witness :
    beatModel { deltaWildcard := "_delta", deltaKeyWildcard := "_dkey" } 0
        { oldValues := [], oldValuesAge := [] }
        [(queryTypeMultipleRows, { columns := ["val_delta"], rows := [["5"]] }),
         (queryTypeSingleRow, { columns := ["a"], rows := [["7"]] })] =
      ([], { oldValues := [], oldValuesAge := [] }, some missingKeyMsg) :=
  C3_missing_key_aborts_cycle
    { deltaWildcard := "_delta", deltaKeyWildcard := "_dkey" }
    { oldValues := [], oldValuesAge := [] } 0
    { columns := ["val_delta"], rows := [["5"]] }
    [(queryTypeSingleRow, { columns := ["a"], rows := [["7"]] })]
    ["5"] [] rfl (by decide) (by decide)
    ⟨("5", "val_delta"), by decide, by decide⟩

/-- C3 counterexample: the claim that the other queries of the cycle
still run and emit their records is false.  With the failing
multiple-rows query first, the cycle publishes nothing at all, although
the second query run by itself publishes one record. -/
theorem C3_other_queries_do_not_run_counterexample :
    (beatModel { deltaWildcard := "_delta", deltaKeyWildcard := "_dkey" } 0
        { oldValues := [], oldValuesAge := [] }
        [(queryTypeMultipleRows, { columns := ["val_delta"], rows := [["5"]] }),
         (queryTypeSingleRow, { columns := ["a"], rows := [["7"]] })]).1 =
      ([] : List BeatEvent) ∧
    beatModel { deltaWildcard := "_delta", deltaKeyWildcard := "_dkey" } 0
        { oldValues := [], oldValuesAge := [] }
        [(queryTypeSingleRow, { columns := ["a"], rows := [["7"]] })] =
      ([{ timestamp := 0,
          fields := some [("a", SVal.int 7), ("type", SVal.str "single-row")] }],
        { oldValues := [], oldValuesAge := [] }, none) := by
  constructor
  · have h1 : endsWithS "val_delta" "_dkey" = false := by decide
    have h2 : endsWithS "val_delta" "_delta" = true := by decide
    have hkey : getKeyFromRow { deltaWildcard := "_delta", deltaKeyWildcard := "_dkey" }
        ["5"] ["val_delta"] = Except.error missingKeyMsg :=
      getKeyFromRow_missing _ ["5"] ["val_delta"] (by decide)
    simp [beatModel, iterateQuery, iterMultiRows, generateEventFromRow,
      generateEmptyEvent, genFields, queryTypeMultipleRows, queryTypeSingleRow,
      queryTypeSlaveDelay, queryTypeTwoColumns, h1, h2, hkey]
  · have h3 : endsWithS "a" "_dkey" = false := by decide
    have h4 : endsWithS "a" "_delta" = false := by decide
    have h5 : goParseInt "7" = some 7 := by decide
    simp [beatModel, iterateQuery, generateEventFromRow, generateEmptyEvent,
      genFields, queryTypeMultipleRows, queryTypeSingleRow, queryTypeSlaveDelay,
      queryTypeTwoColumns, h3, h4, h5, strColTypeOfParts, columnTypeString,
      columnTypeInt, columnTypeFloat, minsert]

/-- C4 witness: the amended statement instantiated at a concrete
configuration and column list. -/
theorem C4_empty_result_emits_nothing_but_errors_witness :
    iterateQuery { deltaWildcard := "_delta", deltaKeyWildcard := "_dkey" }
        { oldValues := [], oldValuesAge := [] } queryTypeSingleRow
        { columns := ["a", "b"], rows := [] } 0 =
      ([], { oldValues := [], oldValuesAge := [] }, some scanNoNextMsg) ∧
    iterateQuery { deltaWildcard := "_delta", deltaKeyWildcard := "_dkey" }
        { oldValues := [], oldValuesAge := [] } queryTypeSlaveDelay
        { columns := ["a", "b"], rows := [] } 0 =
      ([], { oldValues := [], oldValuesAge := [] }, some scanNoNextMsg) :=
  C4_empty_result_emits_nothing_but_errors
    { deltaWildcard := "_delta", deltaKeyWildcard := "_dkey" }
    { oldValues := [], oldValuesAge := [] } ["a", "b"] 0
